import Mathlib

/-!
Shallow embedding of `build.py`, a small build-orchestration script.

The script launches external processes (`git`, `cmake`, `ninja`, `python`,
`7z`) and checks their exit codes.  We model the outside world by two
oracles threaded through every function:

  * `runner : Cmd → Int` — the exit code each launched process would return;
  * `fsExists : String → Bool` — which filesystem paths exist.

Every side effect (spawning a process, creating a directory, deleting a
file, writing the packager's temporary list file) is recorded in a trace of
`Event`s, and every Python function that can raise an exception is embedded
as a function returning `Except String α` together with the trace of events
it performed before returning or raising.  Paths are plain strings; the
`pathlib` join `a/b` becomes string concatenation with a `/` separator.
-/

namespace Build

/-- An external process invocation: program name, argument list and
optional working directory (`cwd=` keyword in the Python source). -/
structure Cmd where
  prog : String
  args : List String
  cwd : Option String
  deriving DecidableEq, Repr

/-- One observable side effect of the script. `run` is a process spawned via
the `cmd` helper; `mkdir` is `Path.mkdir(exist_ok=True)`; `unlink` is
`Path.unlink()`; `tmpWrite` records the full contents of the packager's
temporary list file at the moment it is closed; `tmpDelete` is the removal
of that temporary file when the `with` block exits. -/
inductive Event where
  | run (c : Cmd)
  | mkdir (p : String)
  | unlink (p : String)
  | tmpWrite (content : String)
  | tmpDelete
  deriving DecidableEq, Repr

/-- pathlib's `/` operator. -/
def pjoin (p s : String) : String := p ++ "/" ++ s

/-- `git(*args, cwd)` — runs `git` with the given arguments and raises
(`Except.error`) when the exit code is non-zero
(`if cmd("git", *args, **kwargs) != 0: raise Exception(...)`). -/
def git (runner : Cmd → Int) (args : List String) (cwd : Option String) :
    Except String Unit × List Event :=
  let c : Cmd := ⟨"git", args, cwd⟩
  if runner c ≠ 0 then
    (Except.error ("git command failed: " ++ String.intercalate " " args), [Event.run c])
  else
    (Except.ok (), [Event.run c])

/-- `pull_git_dependency(dir, url, *, branch)`: if the checkout directory
exists, `git fetch`, `git checkout branch`, `git merge origin/branch
--ff-only` (each aborting on non-zero exit); otherwise a single
`git clone url dir -b branch`. -/
def pull_git_dependency (runner : Cmd → Int) (fsExists : String → Bool)
    (dir url branch : String) : Except String Unit × List Event :=
  if fsExists dir then
    match git runner ["fetch"] (some dir) with
    | (Except.error e, t) => (Except.error e, t)
    | (Except.ok _, t1) =>
      match git runner ["checkout", branch] (some dir) with
      | (Except.error e, t) => (Except.error e, t1 ++ t)
      | (Except.ok _, t2) =>
        match git runner ["merge", "origin/" ++ branch, "--ff-only"] (some dir) with
        | (r, t3) => (r, t1 ++ t2 ++ t3)
  else
    git runner ["clone", url, dir, "-b", branch] none

/-- The `git fetch` invocation issued for an existing checkout at `dir`. -/
def fetchCmd (dir : String) : Cmd := ⟨"git", ["fetch"], some dir⟩

/-- The `git checkout branch` invocation issued for an existing checkout. -/
def checkoutCmd (branch dir : String) : Cmd := ⟨"git", ["checkout", branch], some dir⟩

/-- The `git merge origin/branch --ff-only` invocation. -/
def mergeCmd (branch dir : String) : Cmd :=
  ⟨"git", ["merge", "origin/" ++ branch, "--ff-only"], some dir⟩

/-- The `git clone url dir -b branch` invocation for a missing checkout. -/
def cloneCmd (url dir branch : String) : Cmd :=
  ⟨"git", ["clone", url, dir, "-b", branch], none⟩

/-- The two tool classes decorated with `@tool` in the source. -/
inductive Tool where
  | ninja
  | llvm
  deriving DecidableEq, Repr

/-- `cls.__name__` of each tool class. -/
def className : Tool → String
  | Tool.ninja => "Ninja"
  | Tool.llvm => "LLVM"

/-- Python's `str.lower()` on the ASCII class names used here. -/
def lowerString (s : String) : String := String.mk (s.data.map Char.toLower)

/-- Python's `str.strip()`: the string with leading and trailing whitespace
removed. -/
def pyStrip (s : String) : String :=
  String.mk (((s.data.dropWhile Char.isWhitespace).reverse.dropWhile Char.isWhitespace).reverse)

/-- The `tools` dict: the `@tool` decorator inserts each class under
`cls.__name__.lower()`, in declaration order (Ninja first, then LLVM). -/
def tools : List (String × Tool) :=
  [(lowerString (className Tool.ninja), Tool.ninja),
   (lowerString (className Tool.llvm), Tool.llvm)]

/-- `lookup_tool(name)`: `tools.get(name)` — an exact (case-sensitive) dict
lookup of the given name; raises `ValueError` (here `Except.error ()`) when
the name is absent. -/
def lookup_tool (name : String) : Except Unit Tool :=
  match tools.lookup name with
  | some t => Except.ok t
  | none => Except.error ()

/-- The `tools` positional argument: each name on the command line is
converted through `lookup_tool` (argparse `type=lookup_tool`); any raise
makes the whole parse fail before `main` runs.  With no names given the
default is `list(tools.values())`, i.e. every registered tool. -/
def parse_tools (names : List String) : Except Unit (List Tool) :=
  if names.isEmpty then Except.ok (tools.map Prod.snd)
  else names.mapM lookup_tool

/-- The `--config` option: argparse `action="append"` with
`default=["Release"]`.  Each occurrence appends its value to the list held
in the namespace, which starts as the default list, so the result is the
default `"Release"` followed by the given values in order. -/
def parse_configs (opts : List String) : List String :=
  opts.foldl (fun acc c => acc ++ [c]) ["Release"]

/-- `class Ninja`: `__init__` keeps `source_dir = dir/"src"` and
`build_dir = dir` (after `dir.mkdir(exist_ok=True)`). -/
structure NinjaDesc where
  source_dir : String
  build_dir : String
  deriving DecidableEq, Repr

/-- `Ninja(dir)` — creates `dir` and returns the descriptor. -/
def NinjaDesc.init (dir : String) : NinjaDesc × List Event :=
  (⟨pjoin dir "src", dir⟩, [Event.mkdir dir])

/-- `class LLVM`: `__init__` keeps `source_dir = dir/"src"`,
`build_dir = dir/"build"`, `install_dir = dir` (after
`dir.mkdir(exist_ok=True)`). -/
structure LLVMDesc where
  source_dir : String
  build_dir : String
  install_dir : String
  deriving DecidableEq, Repr

/-- `LLVM(dir)` — creates `dir` and returns the descriptor. -/
def LLVMDesc.init (dir : String) : LLVMDesc × List Event :=
  (⟨pjoin dir "src", pjoin dir "build", dir⟩, [Event.mkdir dir])

/-- A constructed descriptor of either tool. -/
inductive Desc where
  | ninja (d : NinjaDesc)
  | llvm (d : LLVMDesc)
  deriving DecidableEq, Repr

/-- `type(dep).__name__`. -/
def Desc.name : Desc → String
  | Desc.ninja _ => "Ninja"
  | Desc.llvm _ => "LLVM"

/-- The tool a descriptor belongs to. -/
def Desc.tool : Desc → Tool
  | Desc.ninja _ => Tool.ninja
  | Desc.llvm _ => Tool.llvm

/-- A cmake cache variable value as it appears in the source: a `Path`, a
string, or a Python bool. -/
inductive CMakeVal where
  | path (p : String)
  | str (s : String)
  | bool (b : Bool)
  deriving DecidableEq, Repr

/-- `cmake_var_def_args`: a `Path` value becomes `-D{name}:PATH={value}`,
anything else `-D{name}={value}` (a Python bool formats as `True`/`False`). -/
def cmake_var_def_arg : String × CMakeVal → String
  | (name, CMakeVal.path p) => "-D" ++ name ++ ":PATH=" ++ p
  | (name, CMakeVal.str s) => "-D" ++ name ++ "=" ++ s
  | (name, CMakeVal.bool b) => "-D" ++ name ++ "=" ++ (if b then "True" else "False")

/-- The cmake invocation issued by `cmake_configure`:
`cmake -G Ninja -DCMAKE_BUILD_TYPE=Release <var defs> source_dir` run in
`build_dir`. -/
def cmakeCmd (build_dir source_dir : String) (vars : List (String × CMakeVal)) : Cmd :=
  ⟨"cmake",
   ["-G", "Ninja", "-DCMAKE_BUILD_TYPE=Release"] ++ vars.map cmake_var_def_arg ++ [source_dir],
   some build_dir⟩

/-- `cmake_configure(build_dir, source_dir, configs, **vars)`: raises when
cmake exits non-zero; the error message interpolates the directories, the
`configs` list and the variables. -/
def cmake_configure (runner : Cmd → Int) (build_dir source_dir : String)
    (configs : List String) (vars : List (String × CMakeVal)) :
    Except String Unit × List Event :=
  let c := cmakeCmd build_dir source_dir vars
  if runner c ≠ 0 then
    (Except.error ("cmake command failed: " ++ build_dir ++ " " ++ source_dir ++ " "
      ++ String.intercalate " " configs ++ " "
      ++ String.intercalate " " (vars.map cmake_var_def_arg)), [Event.run c])
  else
    (Except.ok (), [Event.run c])

/-- The `ninja <targets>` invocation issued by the `ninja` helper. -/
def ninjaCmd (build_dir : String) (targets : List String) : Cmd :=
  ⟨"ninja", targets, some build_dir⟩

/-- `ninja(build_dir, *targets)`: raises when the build executor exits
non-zero (the wall-clock timing print is pure console output and is not
modelled). -/
def ninja_run (runner : Cmd → Int) (build_dir : String) (targets : List String) :
    Except String Unit × List Event :=
  let c := ninjaCmd build_dir targets
  if runner c ≠ 0 then
    (Except.error ("ninja failed: " ++ build_dir ++ " " ++ String.intercalate " " targets),
     [Event.run c])
  else
    (Except.ok (), [Event.run c])

/-- `Ninja.pull`: `pull_git_dependency(self.source_dir,
"https://github.com/ninja-build/ninja.git", branch="master")`. -/
def NinjaDesc.pull (runner : Cmd → Int) (fsExists : String → Bool) (d : NinjaDesc) :
    Except String Unit × List Event :=
  pull_git_dependency runner fsExists d.source_dir
    "https://github.com/ninja-build/ninja.git" "master"

/-- `Ninja.configure`: `pass` — no effect, always succeeds. -/
def NinjaDesc.configure (_runner : Cmd → Int) (_d : NinjaDesc) (_configs : List String) :
    Except String Unit × List Event :=
  (Except.ok (), [])

/-- The bootstrap invocation of `Ninja.build`:
`python <source_dir>/configure.py --bootstrap` run in the build directory. -/
def bootstrapCmd (d : NinjaDesc) : Cmd :=
  ⟨"python", [pjoin d.source_dir "configure.py", "--bootstrap"], some d.build_dir⟩

/-- `Ninja.build`: runs the bootstrap command via `cmd` and discards the
returned exit code — the method returns normally whatever the code is. -/
def NinjaDesc.build (runner : Cmd → Int) (d : NinjaDesc) (_configs : List String) :
    Except String Unit × List Event :=
  let _ := runner (bootstrapCmd d)
  (Except.ok (), [Event.run (bootstrapCmd d)])

/-- `Ninja.artifacts`: the single fixed path `build_dir/"ninja.exe"`. -/
def NinjaDesc.artifacts (d : NinjaDesc) : List String :=
  [pjoin d.build_dir "ninja.exe"]

/-- `LLVM.pull`: `pull_git_dependency(self.source_dir,
"https://github.com/llvm/llvm-project.git")` — default branch `main`. -/
def LLVMDesc.pull (runner : Cmd → Int) (fsExists : String → Bool) (d : LLVMDesc) :
    Except String Unit × List Event :=
  pull_git_dependency runner fsExists d.source_dir
    "https://github.com/llvm/llvm-project.git" "main"

/-- The keyword arguments of the `cmake_configure` call in `LLVM.configure`,
in source order.  `CMAKE_INSTALL_PREFIX` is `self.install_dir`, a `Path`. -/
def llvmVars (d : LLVMDesc) : List (String × CMakeVal) :=
  [("CMAKE_C_COMPILER", CMakeVal.str "clang-cl"),
   ("CMAKE_CXX_COMPILER", CMakeVal.str "clang-cl"),
   ("CMAKE_INSTALL_PREFIX", CMakeVal.path d.install_dir),
   ("LLVM_OPTIMIZED_TABLEGEN", CMakeVal.bool true),
   ("LLVM_ENABLE_LLD", CMakeVal.bool true),
   ("LLVM_TARGETS_TO_BUILD", CMakeVal.str "X86;AArch64;NVPTX"),
   ("LLVM_ENABLE_PROJECTS", CMakeVal.str "clang;clang-tools-extra;lld"),
   ("LLVM_ENABLE_BINDINGS", CMakeVal.bool false),
   ("LLVM_INCLUDE_TOOLS", CMakeVal.bool true),
   ("LLVM_INCLUDE_TESTS", CMakeVal.bool false),
   ("LLVM_INCLUDE_BENCHMARKS", CMakeVal.bool false),
   ("LLVM_INCLUDE_EXAMPLES", CMakeVal.bool false),
   ("LLVM_INCLUDE_DOCS", CMakeVal.bool false),
   ("CLANG_INCLUDE_TESTS", CMakeVal.bool false),
   ("CLANG_INCLUDE_DOCS", CMakeVal.bool false)]

/-- `LLVM.configure`: `build_dir.mkdir(exist_ok=True)` then
`cmake_configure(build_dir, source_dir/"llvm", configs, **vars)`. -/
def LLVMDesc.configure (runner : Cmd → Int) (d : LLVMDesc) (configs : List String) :
    Except String Unit × List Event :=
  match cmake_configure runner d.build_dir (pjoin d.source_dir "llvm") configs (llvmVars d) with
  | (r, t) => (r, Event.mkdir d.build_dir :: t)

/-- `LLVM.build`: `ninja(self.build_dir, "install")` — aborts on a non-zero
exit of the build executor. -/
def LLVMDesc.build (runner : Cmd → Int) (d : LLVMDesc) (_configs : List String) :
    Except String Unit × List Event :=
  ninja_run runner d.build_dir ["install"]

/-- Models pathlib's `Path(s)` constructor on the strings that occur here:
`Path("")` is `PosixPath(".")`, whose string form is `"."`; any other plain
relative or absolute path string is kept verbatim. -/
def pathOfString (s : String) : String :=
  if s = "" then "." else s

/-- `LLVM.artifacts`: iterates the lines of `build_dir/install_manifest.txt`
(the file is given here by its list of lines) and yields `Path(l.strip())`
for every line — no line, empty or not, is skipped. -/
def LLVM.artifactLines (lines : List String) : List String :=
  lines.map (fun l => pathOfString (pyStrip l))

/-- `LLVM.artifacts` for a descriptor, with the manifest contents supplied
by the oracle `manifest` (the lines of `build_dir/install_manifest.txt`). -/
def LLVMDesc.artifacts (manifest : List String) (_d : LLVMDesc) : List String :=
  LLVM.artifactLines manifest

/-- Dispatch of `dep.pull()`. -/
def Desc.pull (runner : Cmd → Int) (fsExists : String → Bool) :
    Desc → Except String Unit × List Event
  | Desc.ninja d => d.pull runner fsExists
  | Desc.llvm d => d.pull runner fsExists

/-- Dispatch of `dep.configure(configs)`. -/
def Desc.configure (runner : Cmd → Int) (configs : List String) :
    Desc → Except String Unit × List Event
  | Desc.ninja d => d.configure runner configs
  | Desc.llvm d => d.configure runner configs

/-- Dispatch of `dep.build(configs)`. -/
def Desc.build (runner : Cmd → Int) (configs : List String) :
    Desc → Except String Unit × List Event
  | Desc.ninja d => d.build runner configs
  | Desc.llvm d => d.build runner configs

/-- Dispatch of `dep.artifacts()`; `manifest` supplies the lines of the
LLVM install manifest. -/
def Desc.artifacts (manifest : List String) : Desc → List String
  | Desc.ninja d => d.artifacts
  | Desc.llvm d => d.artifacts manifest

/-- `dependencies(this_dir, include)`: yields `Ninja(this_dir/"ninja")` when
the Ninja class is in `include`, then `LLVM(this_dir/"llvm")` when the LLVM
class is — always in that fixed order, each at most once.  Returns the
descriptors together with the `mkdir` events their constructors perform. -/
def dependencies (this_dir : String) (include_ : List Tool) : List Desc × List Event :=
  let n := if Tool.ninja ∈ include_ then
      match NinjaDesc.init (pjoin this_dir "ninja") with
      | (d, t) => ([Desc.ninja d], t)
    else ([], [])
  let l := if Tool.llvm ∈ include_ then
      match LLVMDesc.init (pjoin this_dir "llvm") with
      | (d, t) => ([Desc.llvm d], t)
    else ([], [])
  (n.1 ++ l.1, n.2 ++ l.2)

/-- The source checkout directory a descriptor pulls into. -/
def Desc.srcDir : Desc → String
  | Desc.ninja d => d.source_dir
  | Desc.llvm d => d.source_dir

/-- The repository URL a descriptor pulls from. -/
def Desc.url : Desc → String
  | Desc.ninja _ => "https://github.com/ninja-build/ninja.git"
  | Desc.llvm _ => "https://github.com/llvm/llvm-project.git"

/-- The branch a descriptor tracks (`master` for Ninja, the default `main`
for LLVM). -/
def Desc.branch : Desc → String
  | Desc.ninja _ => "master"
  | Desc.llvm _ => "main"

/-- Whether an embedded computation returned normally. -/
def isOkE : Except String Unit → Bool
  | Except.ok _ => true
  | Except.error _ => false

/-- A `for dep in deps:` loop whose body may raise: runs `step` on each
descriptor in order, stopping at the first failure (an uncaught exception
aborts the whole invocation). -/
def seqSteps (step : Desc → Except String Unit × List Event) :
    List Desc → Except String Unit × List Event
  | [] => (Except.ok (), [])
  | d :: rest =>
    match step d with
    | (Except.error e, t) => (Except.error e, t)
    | (Except.ok _, t) =>
      match seqSteps step rest with
      | (r, t2) => (r, t ++ t2)

/-- `pull(deps)`: `dep.pull()` on each descriptor in order. -/
def pull_all (runner : Cmd → Int) (fsExists : String → Bool) (deps : List Desc) :
    Except String Unit × List Event :=
  seqSteps (Desc.pull runner fsExists) deps

/-- The body of the `build(deps, configs)` loop for one descriptor:
`dep.configure(configs)` then `dep.build(configs)`. -/
def build_step (runner : Cmd → Int) (configs : List String) (d : Desc) :
    Except String Unit × List Event :=
  match Desc.configure runner configs d with
  | (Except.error e, t) => (Except.error e, t)
  | (Except.ok _, t1) =>
    match Desc.build runner configs d with
    | (r, t2) => (r, t1 ++ t2)

/-- `build(deps, *, configs)`: configure then build each descriptor in
order, passing `configs` through unchanged to both phases. -/
def build_all (runner : Cmd → Int) (configs : List String) (deps : List Desc) :
    Except String Unit × List Event :=
  seqSteps (build_step runner configs) deps

/-- `a.relative_to(root)`: the remainder of `a` after the prefix
`root ++ "/"`, or `none` (a raised `ValueError`) when `a` does not lie
under `root`. -/
def relative_to (a root : String) : Option String :=
  let p := root ++ "/"
  if p.data.isPrefixOf a.data then some (String.mk (a.data.drop p.data.length)) else none

/-- The contents written to the packager's temporary list file: for each
artifact in order, `str(a.relative_to(this_dir))` followed by a newline.
The boolean is `false` when some artifact is not under the root
(`relative_to` raises mid-loop); the string is then what was written before
the raise. -/
def listfileContent (root : String) : List String → String × Bool
  | [] => ("", true)
  | a :: rest =>
    match relative_to a root with
    | none => ("", false)
    | some r =>
      match listfileContent root rest with
      | (s, ok) => (r ++ "\n" ++ s, ok)

/-- The archiver invocation:
`7z a -t7z -spf -ir@<listfile> <dest>` run in `this_dir`. -/
def sevenZipCmd (this_dir tmpName dest : String) : Cmd :=
  ⟨"7z", ["a", "-t7z", "-spf", "-ir@" ++ tmpName, dest], some this_dir⟩

/-- One iteration of `package`: compute the destination archive
`this_dir/<class name>.7z`, unlink it if it exists, write every artifact
path relative to `this_dir` into a temporary list file (name chosen by the
OS, supplied as `tmpName`), close it, invoke the archiver (its exit code is
read by `cmd` but never checked), and let the `with` block delete the
temporary file.  Only a `relative_to` failure raises; the temporary file is
deleted on that path too, before the archiver ever runs. -/
def package_one (runner : Cmd → Int) (fsExists : String → Bool)
    (manifest : List String) (this_dir tmpName : String) (dep : Desc) :
    Except String Unit × List Event :=
  let dest := pjoin this_dir dep.name ++ ".7z"
  let pre := if fsExists dest then [Event.unlink dest] else []
  match listfileContent this_dir (dep.artifacts manifest) with
  | (content, true) =>
    let c := sevenZipCmd this_dir tmpName dest
    let _ := runner c
    (Except.ok (), pre ++ [Event.tmpWrite content, Event.run c, Event.tmpDelete])
  | (content, false) =>
    (Except.error ("artifact path is not relative to " ++ this_dir),
     pre ++ [Event.tmpWrite content, Event.tmpDelete])

/-- `package(this_dir, deps)`: the packaging iteration on each descriptor
in order. -/
def package_all (runner : Cmd → Int) (fsExists : String → Bool)
    (manifest : List String) (this_dir tmpName : String) (deps : List Desc) :
    Except String Unit × List Event :=
  seqSteps (package_one runner fsExists manifest this_dir tmpName) deps

/-- The whole program: `parse_args()` followed by `main`.  Tool-name
conversion happens during parsing; a `ValueError` from `lookup_tool` makes
argparse report a usage error and exit with a non-zero status before `main`
runs, so no descriptor is constructed and no process is spawned.  On a
successful parse, `main` builds the descriptor list (running every
constructor, hence the `mkdir` events) and dispatches on the subcommand. -/
def run_cli (runner : Cmd → Int) (fsExists : String → Bool) (manifest : List String)
    (this_dir tmpName : String) (command : String) (toolNames : List String)
    (configOpts : List String) : Except String Unit × List Event :=
  match parse_tools toolNames with
  | Except.error _ => (Except.error "usage: unknown tool", [])
  | Except.ok ts =>
    match dependencies this_dir ts with
    | (deps, evs) =>
      if command = "pull" then
        match pull_all runner fsExists deps with
        | (r, t) => (r, evs ++ t)
      else if command = "build" then
        match build_all runner (parse_configs configOpts) deps with
        | (r, t) => (r, evs ++ t)
      else if command = "package" then
        match package_all runner fsExists manifest this_dir tmpName deps with
        | (r, t) => (r, evs ++ t)
      else
        (Except.error "usage: unknown command", [])

theorem foldl_push (l init : List String) :
    l.foldl (fun acc c => acc ++ [c]) init = init ++ l := by
  induction l generalizing init with
  | nil => simp
  | cons a l ih => simp [List.foldl_cons, ih]

theorem tools_eq : tools = [("ninja", Tool.ninja), ("llvm", Tool.llvm)] := rfl

/-- C2: the claim says an empty manifest line yields no artifact entry and
the manifest `["x/y", "", "z"]` yields exactly the two paths `x/y` and `z`;
in the code every line is yielded as `Path(l.strip())`, so the empty line
produces the entry `.` (the string form of `Path("")`) and the result has
three entries, not two. -/
theorem C2_counterexample :
    LLVM.artifactLines ["x/y", "", "z"] = ["x/y", ".", "z"]
    ∧ LLVM.artifactLines ["x/y", "", "z"] ≠ ["x/y", "z"] := by
  exact ⟨rfl, by decide⟩

/-- C2 amended: the artifacts operation yields exactly one entry per
manifest line — the trimmed line as a path — with no line skipped; an empty
(or whitespace-only) line yields the path `.`, so `["x/y", "", "z"]` yields
the three entries `x/y`, `.`, `z`. -/
theorem C2_one_entry_per_line :
    (∀ lines : List String, (LLVM.artifactLines lines).length = lines.length)
    ∧ LLVM.artifactLines ["x/y", "", "z"] = ["x/y", ".", "z"] := by
  refine ⟨fun lines => ?_, rfl⟩
  simp [LLVM.artifactLines]

/-- C3: the claim says `--config Debug --config Release` passes exactly
`[Debug, Release]` to the lifecycle phases; in the code the argparse
`append` action appends onto the mutable default `["Release"]`, so the list
is `[Release, Debug, Release]`. -/
theorem C3_counterexample :
    parse_configs ["Debug", "Release"] ≠ ["Debug", "Release"]
    ∧ parse_configs ["Debug", "Release"] = ["Release", "Debug", "Release"] := by
  exact ⟨by decide, rfl⟩

/-- C3 amended: the configuration list handed unchanged to every configure
and build phase is the default `Release` followed by the `--config` values
in the order given — `[Release, Debug, Release]` for
`--config Debug --config Release` — and just `[Release]` when no `--config`
option is given. -/
theorem C3_configs_append_to_default :
    (∀ opts, parse_configs opts = "Release" :: opts)
    ∧ parse_configs [] = ["Release"] := by
  refine ⟨fun opts => ?_, rfl⟩
  simp [parse_configs, foldl_push]

/-- C4: the claim says any capitalization of a registered tool's name
resolves to its constructor; in the code the registry keys are the
lowercased class names but `lookup_tool` performs an exact `dict.get`, so
the spellings `Ninja` and `LLVM` raise `ValueError` instead of resolving. -/
theorem C4_counterexample :
    lookup_tool "Ninja" = Except.error ()
    ∧ lookup_tool "LLVM" = Except.error ()
    ∧ lookup_tool "ninja" = Except.ok Tool.ninja := by
  exact ⟨rfl, rfl, rfl⟩

/-- C4 amended: for every registered tool, resolving exactly the lowercased
form of its class name returns that tool's constructor, and those are the
only names that resolve at all — the lookup is case-sensitive. -/
theorem C4_lowercase_names_resolve :
    lookup_tool (lowerString (className Tool.ninja)) = Except.ok Tool.ninja
    ∧ lookup_tool (lowerString (className Tool.llvm)) = Except.ok Tool.llvm
    ∧ ∀ name t, lookup_tool name = Except.ok t → name = lowerString (className t) := by
  refine ⟨rfl, rfl, fun name t h => ?_⟩
  by_cases h1 : name = "ninja"
  · subst h1
    rw [show lookup_tool "ninja" = Except.ok Tool.ninja from rfl] at h
    injection h with h2
    subst h2
    rfl
  · by_cases h2 : name = "llvm"
    · subst h2
      rw [show lookup_tool "llvm" = Except.ok Tool.llvm from rfl] at h
      injection h with h3
      subst h3
      rfl
    · exfalso
      have e1 : (name == "ninja") = false := by simp [h1]
      have e2 : (name == "llvm") = false := by simp [h2]
      simp only [lookup_tool, tools, List.lookup,
        show lowerString (className Tool.ninja) = "ninja" from rfl,
        show lowerString (className Tool.llvm) = "llvm" from rfl, e1, e2] at h
      exact Except.noConfusion h

/-- C4 witness: the general direction of the amended statement applied at
the concrete name `ninja`. -/
theorem C4_lowercase_names_resolve_witness :
    "ninja" = lowerString (className Tool.ninja) :=
  C4_lowercase_names_resolve.2.2 "ninja" Tool.ninja rfl

/-- C5: when the source checkout directory exists, the fetch operation
performs exactly `git fetch`, `git checkout <branch>`,
`git merge origin/<branch> --ff-only`, in that order (when every command
succeeds), and whatever the exit codes, every command it runs is one of
those three — never a clone; when the directory does not exist, the trace
is exactly the single `git clone <url> <dir> -b <branch>` and none of the
update steps. -/
theorem C5_fetch_dual_path (runner : Cmd → Int) (fsExists : String → Bool)
    (dir url branch : String) :
    (fsExists dir = true →
      ((∀ c, runner c = 0) →
        pull_git_dependency runner fsExists dir url branch =
          (Except.ok (), [Event.run (fetchCmd dir), Event.run (checkoutCmd branch dir),
            Event.run (mergeCmd branch dir)]))
      ∧ ∀ e ∈ (pull_git_dependency runner fsExists dir url branch).2,
          e = Event.run (fetchCmd dir) ∨ e = Event.run (checkoutCmd branch dir)
          ∨ e = Event.run (mergeCmd branch dir))
    ∧ (fsExists dir = false →
      (pull_git_dependency runner fsExists dir url branch).2 =
        [Event.run (cloneCmd url dir branch)]) := by
  constructor
  · intro hex
    constructor
    · intro hall
      simp [pull_git_dependency, hex, git, hall, fetchCmd, checkoutCmd, mergeCmd]
    · intro e he
      by_cases h1 : runner (Cmd.mk "git" ["fetch"] (some dir)) = 0
      · by_cases h2 : runner (Cmd.mk "git" ["checkout", branch] (some dir)) = 0
        · by_cases h3 : runner (Cmd.mk "git" ["merge", "origin/" ++ branch, "--ff-only"]
              (some dir)) = 0
          · simp [pull_git_dependency, hex, git, fetchCmd, checkoutCmd, mergeCmd,
              h1, h2, h3] at he ⊢
            tauto
          · simp [pull_git_dependency, hex, git, fetchCmd, checkoutCmd, mergeCmd,
              h1, h2, h3] at he ⊢
            tauto
        · simp [pull_git_dependency, hex, git, fetchCmd, checkoutCmd, mergeCmd,
            h1, h2] at he ⊢
          tauto
      · simp [pull_git_dependency, hex, git, fetchCmd, checkoutCmd, mergeCmd, h1] at he ⊢
        tauto
  · intro hex
    by_cases h : runner (Cmd.mk "git" ["clone", url, dir, "-b", branch] none) = 0 <;>
      simp [pull_git_dependency, hex, git, cloneCmd, h]

/-- C5 witness: the theorem applied at an all-succeeding runner with the
checkout directory present, and at a runner with it absent. -/
theorem C5_fetch_dual_path_witness :
    (pull_git_dependency (fun _ => 0) (fun _ => true) "D/src" "URL" "main" =
      (Except.ok (), [Event.run (fetchCmd "D/src"), Event.run (checkoutCmd "main" "D/src"),
        Event.run (mergeCmd "main" "D/src")]))
    ∧ (pull_git_dependency (fun _ => 0) (fun _ => false) "D/src" "URL" "main").2 =
        [Event.run (cloneCmd "URL" "D/src" "main")] := by
  constructor
  · exact ((C5_fetch_dual_path (fun _ => 0) (fun _ => true) "D/src" "URL" "main").1 rfl).1
      (fun _ => rfl)
  · exact (C5_fetch_dual_path (fun _ => 0) (fun _ => false) "D/src" "URL" "main").2 rfl

theorem Desc.pull_eq (runner : Cmd → Int) (fsExists : String → Bool) (dep : Desc) :
    Desc.pull runner fsExists dep =
      pull_git_dependency runner fsExists dep.srcDir dep.url dep.branch := by
  cases dep <;> rfl

/-- C8: when the fast-forward merge step of an up-to-date fetch exits
non-zero (a merge conflict), the whole invocation fails with an error right
there: the trace of the remaining run is exactly fetch, checkout, merge —
no later lifecycle phase and no later descriptor is processed. -/
theorem C8_merge_conflict_aborts (runner : Cmd → Int) (fsExists : String → Bool)
    (dep : Desc) (rest : List Desc)
    (hex : fsExists dep.srcDir = true)
    (h1 : runner (fetchCmd dep.srcDir) = 0)
    (h2 : runner (checkoutCmd dep.branch dep.srcDir) = 0)
    (h3 : runner (mergeCmd dep.branch dep.srcDir) ≠ 0) :
    ∃ msg, pull_all runner fsExists (dep :: rest) =
      (Except.error msg,
       [Event.run (fetchCmd dep.srcDir), Event.run (checkoutCmd dep.branch dep.srcDir),
        Event.run (mergeCmd dep.branch dep.srcDir)]) := by
  simp only [fetchCmd, checkoutCmd, mergeCmd] at h1 h2 h3 ⊢
  simp only [pull_all, seqSteps, Desc.pull_eq]
  simp [pull_git_dependency, hex, git, h1, h2, h3]

/-- C8 witness: the theorem applied to a runner that fails exactly the
merge step, with the toolchain descriptor first and the build-generator
descriptor still pending behind it. -/
theorem C8_merge_conflict_aborts_witness :
    ∃ msg,
      pull_all (fun c => if c.args.headI = "merge" then 1 else 0) (fun _ => true)
        [Desc.llvm ⟨"W/llvm/src", "W/llvm/build", "W/llvm"⟩,
         Desc.ninja ⟨"W/ninja/src", "W/ninja"⟩] =
      (Except.error msg,
       [Event.run (fetchCmd "W/llvm/src"), Event.run (checkoutCmd "main" "W/llvm/src"),
        Event.run (mergeCmd "main" "W/llvm/src")]) :=
  C8_merge_conflict_aborts (fun c => if c.args.headI = "merge" then 1 else 0)
    (fun _ => true) (Desc.llvm ⟨"W/llvm/src", "W/llvm/build", "W/llvm"⟩)
    [Desc.ninja ⟨"W/ninja/src", "W/ninja"⟩] rfl rfl rfl (by decide)

theorem mapM_loop_lookup_error (names : List String) (n : String)
    (he : lookup_tool n = Except.error ()) :
    ∀ acc, n ∈ names → List.mapM.loop lookup_tool names acc = Except.error () := by
  induction names with
  | nil => intro acc hn; cases hn
  | cons a l ih =>
    intro acc hn
    rw [List.mapM.loop]
    rcases List.mem_cons.mp hn with h | h
    · subst h
      rw [he]
      rfl
    · cases ha : lookup_tool a with
      | error e => cases e; rfl
      | ok t =>
        show List.mapM.loop lookup_tool l (t :: acc) = Except.error ()
        exact ih (t :: acc) h

theorem parse_tools_error (names : List String) (n : String)
    (hn : n ∈ names) (he : lookup_tool n = Except.error ()) :
    parse_tools names = Except.error () := by
  have hne : names.isEmpty = false := by
    cases names with
    | nil => cases hn
    | cons a l => rfl
  simp only [parse_tools, hne, Bool.false_eq_true, if_false]
  exact mapM_loop_lookup_error names n he [] hn

/-- C6: a command line naming any unregistered tool fails during argument
parsing, before dispatch: the result is a validation error (argparse exits
non-zero) and the trace is empty — no external process was spawned and no
descriptor constructor ran, so no directory was created. -/
theorem C6_unknown_tool_fails_before_effects (runner : Cmd → Int)
    (fsExists : String → Bool) (manifest : List String) (this_dir tmpName : String)
    (command : String) (names configOpts : List String) (n : String)
    (hn : n ∈ names) (he : lookup_tool n = Except.error ()) :
    run_cli runner fsExists manifest this_dir tmpName command names configOpts =
      (Except.error "usage: unknown tool", []) := by
  simp [run_cli, parse_tools_error names n hn he]

/-- C6 witness: the theorem applied to the unregistered name `clang` on a
`build` command line. -/
theorem C6_unknown_tool_fails_before_effects_witness :
    run_cli (fun _ => 0) (fun _ => true) [] "T" "tmp" "build" ["clang"] [] =
      (Except.error "usage: unknown tool", []) :=
  C6_unknown_tool_fails_before_effects (fun _ => 0) (fun _ => true) [] "T" "tmp"
    "build" ["clang"] [] "clang" (by decide) rfl

theorem relative_to_pjoin (root rest : String) :
    relative_to (pjoin root rest) root = some rest := by
  have hdata : (pjoin root rest).data = (root ++ "/").data ++ rest.data := by
    simp [pjoin]
  simp only [relative_to, hdata, List.isPrefixOf_iff_prefix, List.prefix_append, if_true,
    List.drop_left]

/-- C7: for a descriptor whose artifacts are `a/b.txt` and `c.txt` under the
root, the packaging pass (after unlinking any pre-existing archive) writes
the temporary list file containing exactly `a/b.txt\nc.txt\n` — the two
root-relative paths, one per line — then runs the archiver, then deletes
the temporary file; this holds for every runner, i.e. for every archiver
exit code. -/
theorem C7_package_listfile (runner : Cmd → Int) (fsExists : String → Bool)
    (manifest : List String) (this_dir tmpName : String) (dep : Desc)
    (hart : Desc.artifacts manifest dep = [pjoin this_dir "a/b.txt", pjoin this_dir "c.txt"]) :
    package_one runner fsExists manifest this_dir tmpName dep =
      (Except.ok (),
       (if fsExists (pjoin this_dir dep.name ++ ".7z") then
          [Event.unlink (pjoin this_dir dep.name ++ ".7z")] else [])
       ++ [Event.tmpWrite "a/b.txt\nc.txt\n",
           Event.run (sevenZipCmd this_dir tmpName (pjoin this_dir dep.name ++ ".7z")),
           Event.tmpDelete]) := by
  have hc : listfileContent this_dir [pjoin this_dir "a/b.txt", pjoin this_dir "c.txt"]
      = ("a/b.txt\nc.txt\n", true) := by
    simp [listfileContent, relative_to_pjoin]
  simp [package_one, hart, hc]

/-- C7 witness: the theorem applied to the toolchain descriptor with a
two-line manifest under root `R`, an always-failing archiver, and no
pre-existing archive. -/
theorem C7_package_listfile_witness :
    package_one (fun _ => 1) (fun _ => false) ["R/a/b.txt", "R/c.txt"] "R" "tmpf"
        (Desc.llvm ⟨"R/llvm/src", "R/llvm/build", "R/llvm"⟩) =
      (Except.ok (),
       [Event.tmpWrite "a/b.txt\nc.txt\n",
        Event.run (sevenZipCmd "R" "tmpf" "R/LLVM.7z"),
        Event.tmpDelete]) := by
  have h := C7_package_listfile (fun _ => 1) (fun _ => false) ["R/a/b.txt", "R/c.txt"]
    "R" "tmpf" (Desc.llvm ⟨"R/llvm/src", "R/llvm/build", "R/llvm"⟩) (by rfl)
  simpa using h

/-- C1: the claim says a non-zero exit of the build-generator bootstrap
build (and of the archiver) aborts the entire invocation; in the code
`Ninja.build` and the archiver call discard the exit status returned by
`cmd`.  With a runner on which the bootstrap `python` command exits 1, the
`build` loop still returns success and goes on to run the toolchain's cmake
configure and ninja install — further phases and a further descriptor after
the failing command. -/
theorem C1_counterexample :
    build_all (fun c => if c.prog = "python" then (1 : Int) else 0) ["Release"]
        [Desc.ninja ⟨"T/ninja/src", "T/ninja"⟩,
         Desc.llvm ⟨"T/llvm/src", "T/llvm/build", "T/llvm"⟩] =
      (Except.ok (),
       [Event.run (bootstrapCmd ⟨"T/ninja/src", "T/ninja"⟩),
        Event.mkdir "T/llvm/build",
        Event.run (cmakeCmd "T/llvm/build" (pjoin "T/llvm/src" "llvm")
          (llvmVars ⟨"T/llvm/src", "T/llvm/build", "T/llvm"⟩)),
        Event.run (ninjaCmd "T/llvm/build" ["install"])])
    ∧ (fun c => if c.prog = "python" then (1 : Int) else 0)
        (bootstrapCmd ⟨"T/ninja/src", "T/ninja"⟩) = 1 := by
  exact ⟨rfl, rfl⟩

/-- C1 amended: a non-zero exit of any command whose status the code
checks — every git command, the cmake configure, the ninja install build —
raises an error that aborts the invocation at once, with no further phase
or descriptor processed; but the build-generator bootstrap build and the
7z archiver are invoked without checking their exit codes, so those two
report success and processing continues whatever they return. -/
theorem C1_checked_commands_abort (runner : Cmd → Int) (fsExists : String → Bool)
    (cfgs : List String) :
    (∀ (dep : Desc) (rest : List Desc), fsExists dep.srcDir = true →
      runner (fetchCmd dep.srcDir) ≠ 0 →
      ∃ msg, pull_all runner fsExists (dep :: rest) =
        (Except.error msg, [Event.run (fetchCmd dep.srcDir)]))
    ∧ (∀ (dep : Desc) (rest : List Desc), fsExists dep.srcDir = true →
      runner (fetchCmd dep.srcDir) = 0 →
      runner (checkoutCmd dep.branch dep.srcDir) ≠ 0 →
      ∃ msg, pull_all runner fsExists (dep :: rest) =
        (Except.error msg,
         [Event.run (fetchCmd dep.srcDir), Event.run (checkoutCmd dep.branch dep.srcDir)]))
    ∧ (∀ (dep : Desc) (rest : List Desc), fsExists dep.srcDir = true →
      runner (fetchCmd dep.srcDir) = 0 →
      runner (checkoutCmd dep.branch dep.srcDir) = 0 →
      runner (mergeCmd dep.branch dep.srcDir) ≠ 0 →
      ∃ msg, pull_all runner fsExists (dep :: rest) =
        (Except.error msg,
         [Event.run (fetchCmd dep.srcDir), Event.run (checkoutCmd dep.branch dep.srcDir),
          Event.run (mergeCmd dep.branch dep.srcDir)]))
    ∧ (∀ (dep : Desc) (rest : List Desc), fsExists dep.srcDir = false →
      runner (cloneCmd dep.url dep.srcDir dep.branch) ≠ 0 →
      ∃ msg, pull_all runner fsExists (dep :: rest) =
        (Except.error msg, [Event.run (cloneCmd dep.url dep.srcDir dep.branch)]))
    ∧ (∀ (d : LLVMDesc) (rest : List Desc),
      runner (cmakeCmd d.build_dir (pjoin d.source_dir "llvm") (llvmVars d)) ≠ 0 →
      ∃ msg, build_all runner cfgs (Desc.llvm d :: rest) =
        (Except.error msg,
         [Event.mkdir d.build_dir,
          Event.run (cmakeCmd d.build_dir (pjoin d.source_dir "llvm") (llvmVars d))]))
    ∧ (∀ (d : LLVMDesc) (rest : List Desc),
      runner (cmakeCmd d.build_dir (pjoin d.source_dir "llvm") (llvmVars d)) = 0 →
      runner (ninjaCmd d.build_dir ["install"]) ≠ 0 →
      ∃ msg, build_all runner cfgs (Desc.llvm d :: rest) =
        (Except.error msg,
         [Event.mkdir d.build_dir,
          Event.run (cmakeCmd d.build_dir (pjoin d.source_dir "llvm") (llvmVars d)),
          Event.run (ninjaCmd d.build_dir ["install"])]))
    ∧ (∀ d : NinjaDesc, (NinjaDesc.build runner d cfgs).1 = Except.ok ())
    ∧ (∀ (manifest : List String) (this_dir tmpName : String) (dep : Desc),
      (listfileContent this_dir (Desc.artifacts manifest dep)).2 = true →
      (package_one runner fsExists manifest this_dir tmpName dep).1 = Except.ok ()) := by
  refine ⟨?_, ?_, ?_, ?_, ?_, ?_, fun d => rfl, ?_⟩
  · intro dep rest hex h
    simp only [fetchCmd] at h
    simp only [pull_all, seqSteps, Desc.pull_eq]
    simp [pull_git_dependency, hex, git, h, fetchCmd]
  · intro dep rest hex h1 h2
    simp only [fetchCmd, checkoutCmd] at h1 h2
    simp only [pull_all, seqSteps, Desc.pull_eq]
    simp [pull_git_dependency, hex, git, h1, h2, fetchCmd, checkoutCmd]
  · intro dep rest hex h1 h2 h3
    simp only [fetchCmd, checkoutCmd, mergeCmd] at h1 h2 h3
    simp only [pull_all, seqSteps, Desc.pull_eq]
    simp [pull_git_dependency, hex, git, h1, h2, h3, fetchCmd, checkoutCmd, mergeCmd]
  · intro dep rest hex h
    simp only [cloneCmd] at h
    simp only [pull_all, seqSteps, Desc.pull_eq]
    simp [pull_git_dependency, hex, git, h, cloneCmd]
  · intro d rest h
    simp only [build_all, seqSteps, build_step, Desc.configure, LLVMDesc.configure,
      cmake_configure]
    simp [h]
  · intro d rest h1 h2
    simp only [build_all, seqSteps, build_step, Desc.configure, LLVMDesc.configure,
      cmake_configure, Desc.build, LLVMDesc.build, ninja_run, ninjaCmd] at h2 ⊢
    simp [h1, h2]
  · intro manifest this_dir tmpName dep h
    rcases hl : listfileContent this_dir (Desc.artifacts manifest dep) with ⟨content, ok⟩
    rw [hl] at h
    simp only at h
    subst h
    simp [package_one, hl]

/-- C1 witness: each clause of the amended statement applied at a concrete
descriptor and a runner failing (or succeeding on) exactly the relevant
command. -/
theorem C1_checked_commands_abort_witness :
    (∃ msg, pull_all (fun c => if c.prog = "git" then (1 : Int) else 0) (fun _ => true)
        [Desc.ninja ⟨"W/ninja/src", "W/ninja"⟩] =
      (Except.error msg, [Event.run (fetchCmd "W/ninja/src")]))
    ∧ (∃ msg, pull_all (fun c => if c.args.headI = "checkout" then (1 : Int) else 0)
        (fun _ => true) [Desc.ninja ⟨"W/ninja/src", "W/ninja"⟩] =
      (Except.error msg,
       [Event.run (fetchCmd "W/ninja/src"), Event.run (checkoutCmd "master" "W/ninja/src")]))
    ∧ (∃ msg, pull_all (fun c => if c.args.headI = "merge" then (1 : Int) else 0)
        (fun _ => true) [Desc.ninja ⟨"W/ninja/src", "W/ninja"⟩] =
      (Except.error msg,
       [Event.run (fetchCmd "W/ninja/src"), Event.run (checkoutCmd "master" "W/ninja/src"),
        Event.run (mergeCmd "master" "W/ninja/src")]))
    ∧ (∃ msg, pull_all (fun c => if c.args.headI = "clone" then (1 : Int) else 0)
        (fun _ => false) [Desc.ninja ⟨"W/ninja/src", "W/ninja"⟩] =
      (Except.error msg,
       [Event.run (cloneCmd "https://github.com/ninja-build/ninja.git" "W/ninja/src"
          "master")]))
    ∧ (∃ msg, build_all (fun c => if c.prog = "cmake" then (1 : Int) else 0) ["Release"]
        [Desc.llvm ⟨"W/llvm/src", "W/llvm/build", "W/llvm"⟩] =
      (Except.error msg,
       [Event.mkdir "W/llvm/build",
        Event.run (cmakeCmd "W/llvm/build" (pjoin "W/llvm/src" "llvm")
          (llvmVars ⟨"W/llvm/src", "W/llvm/build", "W/llvm"⟩))]))
    ∧ (∃ msg, build_all (fun c => if c.prog = "ninja" then (1 : Int) else 0) ["Release"]
        [Desc.llvm ⟨"W/llvm/src", "W/llvm/build", "W/llvm"⟩] =
      (Except.error msg,
       [Event.mkdir "W/llvm/build",
        Event.run (cmakeCmd "W/llvm/build" (pjoin "W/llvm/src" "llvm")
          (llvmVars ⟨"W/llvm/src", "W/llvm/build", "W/llvm"⟩)),
        Event.run (ninjaCmd "W/llvm/build" ["install"])]))
    ∧ (NinjaDesc.build (fun _ => (1 : Int)) ⟨"W/ninja/src", "W/ninja"⟩ ["Release"]).1
        = Except.ok ()
    ∧ (package_one (fun _ => (1 : Int)) (fun _ => false) ["W/a.txt"] "W" "tmpf"
        (Desc.llvm ⟨"W/llvm/src", "W/llvm/build", "W/llvm"⟩)).1 = Except.ok () := by
  refine ⟨?_, ?_, ?_, ?_, ?_, ?_, ?_, ?_⟩
  · exact (C1_checked_commands_abort (fun c => if c.prog = "git" then (1 : Int) else 0)
      (fun _ => true) ["Release"]).1 (Desc.ninja ⟨"W/ninja/src", "W/ninja"⟩) [] rfl (by decide)
  · exact (C1_checked_commands_abort (fun c => if c.args.headI = "checkout" then (1 : Int)
      else 0) (fun _ => true) ["Release"]).2.1 (Desc.ninja ⟨"W/ninja/src", "W/ninja"⟩) []
      rfl (by decide) (by decide)
  · exact (C1_checked_commands_abort (fun c => if c.args.headI = "merge" then (1 : Int)
      else 0) (fun _ => true) ["Release"]).2.2.1 (Desc.ninja ⟨"W/ninja/src", "W/ninja"⟩) []
      rfl (by decide) (by decide) (by decide)
  · exact (C1_checked_commands_abort (fun c => if c.args.headI = "clone" then (1 : Int)
      else 0) (fun _ => false) ["Release"]).2.2.2.1 (Desc.ninja ⟨"W/ninja/src", "W/ninja"⟩)
      [] rfl (by decide)
  · exact (C1_checked_commands_abort (fun c => if c.prog = "cmake" then (1 : Int) else 0)
      (fun _ => true) ["Release"]).2.2.2.2.1 ⟨"W/llvm/src", "W/llvm/build", "W/llvm"⟩ []
      (by decide)
  · exact (C1_checked_commands_abort (fun c => if c.prog = "ninja" then (1 : Int) else 0)
      (fun _ => true) ["Release"]).2.2.2.2.2.1 ⟨"W/llvm/src", "W/llvm/build", "W/llvm"⟩ []
      (by decide) (by decide)
  · exact (C1_checked_commands_abort (fun _ => (1 : Int)) (fun _ => true)
      ["Release"]).2.2.2.2.2.2.1 ⟨"W/ninja/src", "W/ninja"⟩
  · exact (C1_checked_commands_abort (fun _ => (1 : Int)) (fun _ => false)
      ["Release"]).2.2.2.2.2.2.2 ["W/a.txt"] "W" "tmpf"
      (Desc.llvm ⟨"W/llvm/src", "W/llvm/build", "W/llvm"⟩) (by decide)

theorem build_step_configs (runner : Cmd → Int) (cfgs1 cfgs2 : List String) (d : Desc) :
    (build_step runner cfgs1 d).2 = (build_step runner cfgs2 d).2
    ∧ isOkE (build_step runner cfgs1 d).1 = isOkE (build_step runner cfgs2 d).1 := by
  cases d with
  | ninja nd => exact ⟨rfl, rfl⟩
  | llvm ld =>
    by_cases h1 : runner (cmakeCmd ld.build_dir (pjoin ld.source_dir "llvm") (llvmVars ld)) = 0
    · by_cases h2 : runner (ninjaCmd ld.build_dir ["install"]) = 0 <;>
        simp [build_step, Desc.configure, LLVMDesc.configure, cmake_configure,
          Desc.build, LLVMDesc.build, ninja_run, isOkE, h1, h2]
    · simp [build_step, Desc.configure, LLVMDesc.configure, cmake_configure, isOkE, h1]

/-- C9: the configuration-name list never changes what the build subcommand
does: with any two lists the loop performs the same side effects (the same
external commands in the same order) and succeeds or fails alike; the
build-generator's configure phase does nothing at all, and the toolchain's
cmake invocation always carries the hard-coded `-DCMAKE_BUILD_TYPE=Release`
— the configs list shows up only in the text of error messages. -/
theorem C9_configs_affect_only_messages (runner : Cmd → Int)
    (cfgs1 cfgs2 : List String) (deps : List Desc) :
    ((build_all runner cfgs1 deps).2 = (build_all runner cfgs2 deps).2
      ∧ isOkE (build_all runner cfgs1 deps).1 = isOkE (build_all runner cfgs2 deps).1)
    ∧ (∀ nd : NinjaDesc, NinjaDesc.configure runner nd cfgs1 = (Except.ok (), []))
    ∧ (∀ d : LLVMDesc, "-DCMAKE_BUILD_TYPE=Release"
        ∈ (cmakeCmd d.build_dir (pjoin d.source_dir "llvm") (llvmVars d)).args) := by
  refine ⟨?_, fun nd => rfl, fun d => by simp [cmakeCmd]⟩
  induction deps with
  | nil => exact ⟨rfl, rfl⟩
  | cons d rest ih =>
    have hd := build_step_configs runner cfgs1 cfgs2 d
    rcases hs1 : build_step runner cfgs1 d with ⟨r1, t1⟩
    rcases hs2 : build_step runner cfgs2 d with ⟨r2, t2⟩
    rw [hs1, hs2] at hd
    obtain ⟨hteq, hok⟩ := hd
    simp only at hteq hok
    cases r1 with
    | error e1 =>
      cases r2 with
      | error e2 =>
        subst hteq
        constructor <;> simp [build_all, seqSteps, hs1, hs2, isOkE]
      | ok u => simp [isOkE] at hok
    | ok u1 =>
      cases r2 with
      | error e2 => simp [isOkE] at hok
      | ok u2 =>
        subst hteq
        obtain ⟨ih1, ih2⟩ := ih
        simp only [build_all] at ih1 ih2
        constructor <;> simp [build_all, seqSteps, hs1, hs2, ih1, ih2]

/-- C10: whatever tool selections reach `dependencies`, the descriptor list
it yields is a sublist of the fixed order [Ninja, LLVM] — each tool at most
once, build-generator always before toolchain — and it depends only on
which tools are selected, never on the order or multiplicity of the
selections. -/
theorem C10_fixed_order_dedup (this_dir : String) (inc1 inc2 : List Tool) :
    ((dependencies this_dir inc1).1.map Desc.tool).Sublist [Tool.ninja, Tool.llvm]
    ∧ ((∀ t, t ∈ inc1 ↔ t ∈ inc2) →
        dependencies this_dir inc1 = dependencies this_dir inc2) := by
  constructor
  · by_cases hn : Tool.ninja ∈ inc1 <;> by_cases hl : Tool.llvm ∈ inc1 <;>
      simp [dependencies, hn, hl, NinjaDesc.init, LLVMDesc.init, Desc.tool]
  · intro h
    simp only [dependencies, h]

/-- C10 witness: the invariance direction applied to two selections with
the same members but different order and multiplicity. -/
theorem C10_fixed_order_dedup_witness :
    dependencies "T" [Tool.llvm, Tool.ninja, Tool.ninja] =
      dependencies "T" [Tool.ninja, Tool.llvm] :=
  (C10_fixed_order_dedup "T" [Tool.llvm, Tool.ninja, Tool.ninja]
    [Tool.ninja, Tool.llvm]).2 (by intro t; cases t <;> decide)

end Build
